import Mathlib

/-!
Verification development for the basyx-security-layer policy engine.

The definitions below are shallow embeddings of the Python sources:
- src/basyx_security/core/enums.py          (SecurityLevel, AccessRight)
- src/basyx_security/core/security_context.py (SecurityContext)
- src/basyx_security/core/audit.py          (AuditEvent, SecurityAuditor sink)
- src/basyx_security/core/security_manager.py (SecurityManager.check_access)
- src/basyx_security/core/rate_limiter.py   (RateLimiter)
- src/basyx_security/core/session.py        (SessionManager)
- src/sdk/basyx/security/core.py            (the duplicated SecurityManager)

Conventions: Python dicts become total functions with Option codomain
(None encodes key absence); Python sets of role strings become lists whose
order is proved irrelevant where it matters; timestamps and durations are
rationals; raising an exception becomes an Except.error result; the
logging side channel of SecurityAuditor becomes an explicit list of
appended AuditEvent records.
-/

namespace BasyxSecurity

/-- Pointwise update of a one-key map modelled as a total function. -/
def updateFn (f : String → α) (k : String) (v : α) : String → α :=
  fun x => if x = k then v else f x

/-- Pointwise update of a two-key map modelled as a curried total function. -/
def updateFn2 (f : String → String → α) (k1 k2 : String) (v : α) :
    String → String → α :=
  fun x y => if x = k1 ∧ y = k2 then v else f x y

/-- SecurityLevel from src/basyx_security/core/enums.py (members via auto()). -/
inductive SecurityLevel
  | LOW
  | MEDIUM
  | HIGH
  | CRITICAL
deriving DecidableEq

/-- Numeric value of each SecurityLevel member: auto() numbers from 1. -/
def SecurityLevel.value : SecurityLevel → Nat
  | .LOW => 1
  | .MEDIUM => 2
  | .HIGH => 3
  | .CRITICAL => 4

/-- Member name of a SecurityLevel, as Python's .name attribute. -/
def SecurityLevel.name : SecurityLevel → String
  | .LOW => "LOW"
  | .MEDIUM => "MEDIUM"
  | .HIGH => "HIGH"
  | .CRITICAL => "CRITICAL"

/-- AccessRight from src/basyx_security/core/enums.py (members via auto()). -/
inductive AccessRight
  | NONE
  | READ
  | WRITE
  | EXECUTE
  | FULL
deriving DecidableEq

/-- Numeric value in core/enums.py: auto() numbers from 1. -/
def AccessRight.value : AccessRight → Nat
  | .NONE => 1
  | .READ => 2
  | .WRITE => 3
  | .EXECUTE => 4
  | .FULL => 5

/-- Numeric value in sdk/basyx/security/core.py: explicit values from 0. -/
def AccessRight.sdkValue : AccessRight → Nat
  | .NONE => 0
  | .READ => 1
  | .WRITE => 2
  | .EXECUTE => 3
  | .FULL => 4

/-- Member name of an AccessRight, as Python's .name attribute. -/
def AccessRight.name : AccessRight → String
  | .NONE => "NONE"
  | .READ => "READ"
  | .WRITE => "WRITE"
  | .EXECUTE => "EXECUTE"
  | .FULL => "FULL"

/-- SecurityContext from src/basyx_security/core/security_context.py.
The Python role set is carried as a list; all decision results are proved
independent of its order. -/
structure SecurityContext where
  user_id : String
  roles : List String
  security_level : SecurityLevel
  timestamp : ℚ
  token : Option String
deriving DecidableEq

/-- AuditEvent dataclass from src/basyx_security/core/audit.py.
The open-ended details dict is carried as an optional association list of
string pairs (the source only ever stores string values). -/
structure AuditEvent where
  timestamp : ℚ
  event_type : String
  user_id : String
  resource_id : String
  action : String
  roles : List String
  security_level : String
  status : String
  details : Option (List (String × String))
deriving DecidableEq

/-- The event built by SecurityAuditor.log_access_attempt (audit.py lines
85-114): event_type "access_attempt", fields copied from the context. -/
def accessAttemptEvent (now : ℚ) (ctx : SecurityContext) (resource_id : String)
    (required : AccessRight) (status : String)
    (details : Option (List (String × String))) : AuditEvent :=
  { timestamp := now
    event_type := "access_attempt"
    user_id := ctx.user_id
    resource_id := resource_id
    action := required.name
    roles := ctx.roles
    security_level := ctx.security_level.name
    status := status
    details := details }

/-- Data carried by the SecurityViolation exception raised in
SecurityManager.check_access (the required and provided levels that are
interpolated into its message). -/
structure SecurityViolation where
  required : SecurityLevel
  provided : SecurityLevel
deriving DecidableEq

/-- Policy state of SecurityManager (security_manager.py lines 19-24):
_security_policies and _role_permissions.  The two-level role dict is
curried; a role with no inner dict and a role whose inner dict lacks the
resource are observationally identical in every public operation, so both
are encoded as a none lookup. -/
structure SecurityManagerState where
  securityPolicies : String → Option SecurityLevel
  rolePermissions : String → String → Option AccessRight

/-- One iteration of the role loop in check_access (security_manager.py
lines 114-128): a role satisfies the request when it has an explicit grant
for the resource that is FULL or of value >= the required value; a role
with no explicit grant is skipped. -/
def roleSatisfies (perms : String → String → Option AccessRight)
    (resource_id : String) (required : AccessRight) (role : String) : Bool :=
  match perms role resource_id with
  | some granted => granted == .FULL || decide (required.value ≤ granted.value)
  | none => false

/-- SecurityManager.check_access (security_manager.py lines 83-143).
Returns the Except outcome (error = the raised SecurityViolation) together
with the audit sink extended by the event logged on this call.  The
clearance gate runs only when the resource has an explicit policy; the
violation is audited with reason insufficient_security_level before the
exception propagates; a grant logs a success event; exhaustion of the role
loop logs a failure event with reason insufficient_permissions and returns
False. -/
def checkAccess (st : SecurityManagerState) (log : List AuditEvent)
    (ctx : SecurityContext) (resource_id : String) (required : AccessRight)
    (now : ℚ) : Except SecurityViolation Bool × List AuditEvent :=
  match st.securityPolicies resource_id with
  | some requiredLevel =>
    if ctx.security_level.value < requiredLevel.value then
      (.error ⟨requiredLevel, ctx.security_level⟩,
       log ++ [accessAttemptEvent now ctx resource_id required "failure"
                 (some [("reason", "insufficient_security_level")])])
    else
      if ctx.roles.any (roleSatisfies st.rolePermissions resource_id required) then
        (.ok true,
         log ++ [accessAttemptEvent now ctx resource_id required "success" none])
      else
        (.ok false,
         log ++ [accessAttemptEvent now ctx resource_id required "failure"
                   (some [("reason", "insufficient_permissions")])])
  | none =>
    if ctx.roles.any (roleSatisfies st.rolePermissions resource_id required) then
      (.ok true,
       log ++ [accessAttemptEvent now ctx resource_id required "success" none])
    else
      (.ok false,
       log ++ [accessAttemptEvent now ctx resource_id required "failure"
                 (some [("reason", "insufficient_permissions")])])

namespace Sdk

/-- SecurityLevel from src/sdk/basyx/security/core.py: only LOW, MEDIUM,
HIGH, with explicit values 1, 2, 3. -/
inductive SecurityLevel
  | LOW
  | MEDIUM
  | HIGH
deriving DecidableEq

/-- Explicit numeric values declared in sdk core.py. -/
def SecurityLevel.value : SecurityLevel → Nat
  | .LOW => 1
  | .MEDIUM => 2
  | .HIGH => 3

/-- The corresponding member of the core enum (same name). -/
def SecurityLevel.toCore : SecurityLevel → BasyxSecurity.SecurityLevel
  | .LOW => .LOW
  | .MEDIUM => .MEDIUM
  | .HIGH => .HIGH

/-- One iteration of the role loop in the sdk check_access (core.py lines
103-123): the grant defaults to NONE, FULL always satisfies, and otherwise
only an explicit required right of READ, WRITE or EXECUTE is compared by
value; a required right of NONE or FULL matches no comparison branch. -/
def roleSatisfies (perms : String → String → Option AccessRight)
    (resource_id : String) (required : AccessRight) (role : String) : Bool :=
  let granted := (perms role resource_id).getD .NONE
  granted == .FULL
    || (required == .READ &&
          decide (AccessRight.READ.sdkValue ≤ granted.sdkValue))
    || (required == .WRITE &&
          decide (AccessRight.WRITE.sdkValue ≤ granted.sdkValue))
    || (required == .EXECUTE &&
          decide (AccessRight.EXECUTE.sdkValue ≤ granted.sdkValue))

/-- SecurityManager.check_access from src/sdk/basyx/security/core.py lines
90-129: the required level defaults to LOW, a clearance failure returns
False (no exception), and the role loop grants on the first satisfying
role, else the call returns False. -/
def checkAccess (policies : String → Option SecurityLevel)
    (perms : String → String → Option AccessRight)
    (roles : List String) (level : SecurityLevel)
    (resource_id : String) (required : AccessRight) : Bool :=
  let requiredLevel := (policies resource_id).getD .LOW
  if level.value < requiredLevel.value then
    false
  else
    roles.any (roleSatisfies perms resource_id required)

end Sdk

/-- RateLimit dataclass from src/basyx_security/core/rate_limiter.py.
The request quota is the natural count compared against list lengths; the
window and block durations are carried as rationals (Python mixes the int
fields with float timestamps in its arithmetic). -/
structure RateLimit where
  requests : Nat
  windowSeconds : ℚ
  blockSeconds : ℚ
deriving DecidableEq

/-- RateLimiter state (rate_limiter.py lines 36-42): _limits, the
per-resource per-client timestamp lists (defaultdict, default empty), and
the per-resource per-client block-until times (absent = not blocked). -/
structure RateLimiterState where
  limits : String → Option RateLimit
  requests : String → String → List ℚ
  blocks : String → String → Option ℚ

/-- Steps 3-5 of RateLimiter.check_rate_limit (rate_limiter.py lines
87-100), reached once any block has been handled: evict timestamps at or
before now - window (the source keeps t > window_start) and store the
evicted list; if the remaining count already meets the quota, install a
block until now + block_seconds and fail with wait_time = block_seconds;
otherwise record now and admit. -/
def checkWindow (st : RateLimiterState) (limit : RateLimit)
    (resource_id client_id : String) (now : ℚ) :
    Except ℚ Unit × RateLimiterState :=
  let windowStart := now - limit.windowSeconds
  let kept := (st.requests resource_id client_id).filter
    (fun t => decide (windowStart < t))
  let st1 : RateLimiterState :=
    { st with requests := updateFn2 st.requests resource_id client_id kept }
  if limit.requests ≤ kept.length then
    (.error limit.blockSeconds,
     { st1 with blocks := updateFn2 st1.blocks resource_id client_id
                  (some (now + limit.blockSeconds)) })
  else
    (.ok (),
     { st1 with requests := updateFn2 st1.requests resource_id client_id
                  (kept ++ [now]) })

/-- RateLimiter.check_rate_limit (rate_limiter.py lines 54-100).  The
error value is the wait_time carried by the RateLimitExceeded exception.
An unconfigured resource admits without touching state; an active block
(now strictly before block-until) fails with wait_time = block_until - now
and leaves state unchanged; an elapsed block is deleted before the window
processing runs. -/
def checkRateLimit (st : RateLimiterState) (resource_id client_id : String)
    (now : ℚ) : Except ℚ Unit × RateLimiterState :=
  match st.limits resource_id with
  | none => (.ok (), st)
  | some limit =>
    match st.blocks resource_id client_id with
    | some blockUntil =>
      if now < blockUntil then
        (.error (blockUntil - now), st)
      else
        checkWindow
          { st with blocks := updateFn2 st.blocks resource_id client_id none }
          limit resource_id client_id now
    | none => checkWindow st limit resource_id client_id now

/-- RateLimiter.get_remaining_requests (rate_limiter.py lines 102-131).
Returns none (the Python None sentinel) for an unconfigured resource;
returns 0 whenever a block entry is present for the client — the source
tests membership in _blocks only, without comparing against the current
time; otherwise max(0, requests - count of timestamps inside the window).
The state is read only, so the embedding returns just the value. -/
def getRemainingRequests (st : RateLimiterState)
    (resource_id client_id : String) (now : ℚ) : Option Int :=
  match st.limits resource_id with
  | none => none
  | some limit =>
    match st.blocks resource_id client_id with
    | some _ => some 0
    | none =>
      let windowStart := now - limit.windowSeconds
      let recent := ((st.requests resource_id client_id).filter
        (fun t => decide (windowStart < t))).length
      some (max 0 ((limit.requests : Int) - (recent : Int)))

/-- Session dataclass from src/basyx_security/core/session.py. -/
structure Session where
  sessionId : String
  userId : String
  roles : List String
  createdAt : ℚ
  expiresAt : ℚ
  lastAccessed : ℚ
deriving DecidableEq

/-- SessionManager state (session.py lines 49-53): the id-indexed session
table, the per-user index of session ids (absence of a user key is
distinct from an empty set: the source deletes the key once empty), and
the default timeout. -/
structure SessionManagerState where
  sessions : String → Option Session
  userSessions : String → Option (List String)
  sessionTimeout : ℚ

/-- SessionManager._remove_session (session.py lines 146-157): delete the
id from the session table, discard it from the owner's index set, and
delete the owner's index entry entirely once the set is empty. -/
def removeSession (st : SessionManagerState) (s : Session) :
    SessionManagerState :=
  let sessions1 := updateFn st.sessions s.sessionId none
  let userSessions1 :=
    match st.userSessions s.userId with
    | none => st.userSessions
    | some ids =>
      let ids1 := ids.filter (fun i => i != s.sessionId)
      if ids1.isEmpty then updateFn st.userSessions s.userId none
      else updateFn st.userSessions s.userId (some ids1)
  { sessions := sessions1
    userSessions := userSessions1
    sessionTimeout := st.sessionTimeout }

/-- The duration selected by Python's truthiness test
"session_duration or self._session_timeout" (session.py line 85): an
absent duration falls back to the default, and so does an explicitly
supplied zero duration, because timedelta(0) is falsy; any non-zero
duration — negative included — is used as given. -/
def effectiveDuration (sessionDuration : Option ℚ) (defaultTimeout : ℚ) :
    ℚ :=
  match sessionDuration with
  | none => defaultTimeout
  | some d => if d = 0 then defaultTimeout else d

/-- SessionManager.create_session (session.py lines 62-95).  The uuid and
the utcnow reads are passed in as sid and now; expires_at is
now + (session_duration or the default timeout), with the or evaluated by
truthiness as in the source. -/
def createSession (st : SessionManagerState) (userId : String)
    (roles : List String) (sessionDuration : Option ℚ) (now : ℚ)
    (sid : String) : Session × SessionManagerState :=
  let s : Session :=
    { sessionId := sid
      userId := userId
      roles := roles
      createdAt := now
      expiresAt := now + effectiveDuration sessionDuration st.sessionTimeout
      lastAccessed := now }
  (s,
   { sessions := updateFn st.sessions sid (some s)
     userSessions := updateFn st.userSessions userId
       (some (sid :: (st.userSessions userId).getD []))
     sessionTimeout := st.sessionTimeout })

/-- SessionManager.get_session (session.py lines 97-120): absent id gives
none; a session with now strictly past expires_at is removed and none is
returned; otherwise last_accessed becomes now, expires_at becomes
now + the default timeout, the updated record is stored and returned. -/
def getSession (st : SessionManagerState) (sid : String) (now : ℚ) :
    Option Session × SessionManagerState :=
  match st.sessions sid with
  | none => (none, st)
  | some s =>
    if s.expiresAt < now then
      (none, removeSession st s)
    else
      let s1 : Session := { s with lastAccessed := now,
                                   expiresAt := now + st.sessionTimeout }
      (some s1, { st with sessions := updateFn st.sessions sid (some s1) })

/-- Modelled from the spec: the AuditLog event store.  The class is
exported by src/basyx_security/core/__init__.py and exercised by
src/tests/test_security.py (log_event, get_events), but its definition is
absent from src (audit.py defines only the SecurityAuditor sink).  Per
spec section 4.2 it is an append-only in-memory ordered sequence of
events. -/
structure AuditLog where
  events : List AuditEvent
deriving DecidableEq

/-- Modelled from the spec: AuditLog.log_event appends the event to the
in-memory ordered sequence. -/
def AuditLog.logEvent (log : AuditLog) (e : AuditEvent) : AuditLog :=
  ⟨log.events ++ [e]⟩

/-- Modelled from the spec: an event matches the get_events filters when
every supplied, non-absent filter holds (user id and event type by
equality, start and end time as inclusive bounds on the timestamp);
absent filters impose no constraint. -/
def matchesFilters (userId eventType : Option String)
    (startTime endTime : Option ℚ) (e : AuditEvent) : Bool :=
  userId.all (fun u => u == e.user_id)
    && eventType.all (fun t => t == e.event_type)
    && startTime.all (fun s => decide (s ≤ e.timestamp))
    && endTime.all (fun t => decide (e.timestamp ≤ t))

/-- Modelled from the spec: AuditLog.get_events returns all stored events
matching every supplied filter, in insertion order, without mutating the
store. -/
def AuditLog.getEvents (log : AuditLog) (userId eventType : Option String)
    (startTime endTime : Option ℚ) : List AuditEvent :=
  log.events.filter (matchesFilters userId eventType startTime endTime)

/-- The decision formula asserted by claim C3 as written: take each role's
grant for the resource with absent entries defaulting to NONE, and grant
access when some such grant is FULL or the maximum grant value reaches the
required value. -/
def claimedMaxDecision (perms : String → String → Option AccessRight)
    (roles : List String) (resource_id : String)
    (required : AccessRight) : Bool :=
  let grants := roles.map (fun role => (perms role resource_id).getD .NONE)
  grants.any (fun g => g == .FULL)
    || decide (required.value ≤ (grants.map AccessRight.value).foldr max 0)

/-- A list's any is invariant under permutation of the list. -/
theorem any_perm {α : Type} (p : α → Bool) {l1 l2 : List α}
    (h : l1.Perm l2) : l1.any p = l2.any p := by
  induction h with
  | nil => rfl
  | cons x _ ih => simp [List.any_cons, ih]
  | swap x y l => simp [List.any_cons, Bool.or_left_comm]
  | trans _ _ ih1 ih2 => exact ih1.trans ih2

/-- A list's any only depends on the predicate's values on its members. -/
theorem any_congr_mem {α : Type} {p q : α → Bool} {l : List α}
    (h : ∀ a ∈ l, p a = q a) : l.any p = l.any q := by
  induction l with
  | nil => rfl
  | cons x xs ih =>
    simp only [List.any_cons, h x (List.mem_cons_self x xs),
      ih (fun a ha => h a (List.mem_cons_of_mem x ha))]

/-- A role satisfies the core role loop exactly when it has an explicit
grant for the resource that is FULL or of value at least the required
value. -/
theorem roleSatisfies_iff (perms : String → String → Option AccessRight)
    (resource_id : String) (required : AccessRight) (role : String) :
    roleSatisfies perms resource_id required role = true ↔
      ∃ g, perms role resource_id = some g ∧
        (g = .FULL ∨ required.value ≤ g.value) := by
  unfold roleSatisfies
  cases h : perms role resource_id with
  | none => simp
  | some g => simp [h]

/-- C2 (amended): for every security context whose security level is
ordinally below the configured required clearance of the resource,
check_access raises a SecurityViolation carrying the required and provided
levels, regardless of role grants, and the audit sink is extended by
exactly one "access_attempt" event with status "failure" and reason
insufficient_security_level, recorded together with the propagating
failure. -/
theorem checkAccess_clearance_denied (st : SecurityManagerState)
    (log : List AuditEvent) (ctx : SecurityContext) (resource_id : String)
    (required : AccessRight) (now : ℚ) (L : SecurityLevel)
    (hpol : st.securityPolicies resource_id = some L)
    (hlt : ctx.security_level.value < L.value) :
    checkAccess st log ctx resource_id required now =
      (.error ⟨L, ctx.security_level⟩,
       log ++ [{ timestamp := now
                 event_type := "access_attempt"
                 user_id := ctx.user_id
                 resource_id := resource_id
                 action := required.name
                 roles := ctx.roles
                 security_level := ctx.security_level.name
                 status := "failure"
                 details := some [("reason", "insufficient_security_level")] }]) := by
  simp [checkAccess, hpol, hlt, accessAttemptEvent]

/-- C2 witness: a LOW-clearance caller against a resource configured
MEDIUM is rejected with the SecurityViolation data and the audited
insufficient_security_level failure event. -/
theorem checkAccess_clearance_denied_witness :
    checkAccess
      ⟨updateFn (fun _ => none) "res" (some .MEDIUM), fun _ _ => none⟩
      [] ⟨"u", ["r"], .LOW, 0, none⟩ "res" .READ 0 =
      (.error ⟨.MEDIUM, .LOW⟩,
       [{ timestamp := 0
          event_type := "access_attempt"
          user_id := "u"
          resource_id := "res"
          action := "READ"
          roles := ["r"]
          security_level := "LOW"
          status := "failure"
          details := some [("reason", "insufficient_security_level")] }]) := by
  have h := checkAccess_clearance_denied
    ⟨updateFn (fun _ => none) "res" (some .MEDIUM), fun _ _ => none⟩
    [] ⟨"u", ["r"], .LOW, 0, none⟩ "res" .READ 0 .MEDIUM (by decide) (by decide)
  simpa using h

/-- C2 counterexample to the claim as stated: on a clearance denial the
recorded audit event's event_type is "access_attempt" (with status
"failure"), not "access_denied"; no "access_denied" event exists in the
code. -/
theorem checkAccess_clearance_event_not_access_denied :
    (checkAccess
      ⟨updateFn (fun _ => none) "res" (some .MEDIUM), fun _ _ => none⟩
      [] ⟨"u", ["r"], .LOW, 0, none⟩ "res" .READ 0).1 =
        .error ⟨.MEDIUM, .LOW⟩ ∧
    ((checkAccess
      ⟨updateFn (fun _ => none) "res" (some .MEDIUM), fun _ _ => none⟩
      [] ⟨"u", ["r"], .LOW, 0, none⟩ "res" .READ 0).2.map
        AuditEvent.event_type) = ["access_attempt"] ∧
    "access_attempt" ≠ "access_denied" := by
  refine ⟨rfl, by decide, by decide⟩

/-- C1 (amended): for every security context whose security level meets
the resource's required clearance but none of whose roles has a grant
(default NONE) that is FULL or ordinally at least the required right,
check_access returns False — the denial is surfaced as the boolean result,
not as a raised condition — and the audit sink is extended by exactly one
"access_attempt" event with status "failure" and reason
insufficient_permissions, recorded together with the returned denial. -/
theorem checkAccess_permission_denied (st : SecurityManagerState)
    (log : List AuditEvent) (ctx : SecurityContext) (resource_id : String)
    (required : AccessRight) (now : ℚ)
    (hsec : ∀ L, st.securityPolicies resource_id = some L →
      L.value ≤ ctx.security_level.value)
    (hperm : ∀ role ∈ ctx.roles,
      ¬(((st.rolePermissions role resource_id).getD .NONE) = .FULL ∨
        required.value ≤
          ((st.rolePermissions role resource_id).getD .NONE).value)) :
    checkAccess st log ctx resource_id required now =
      (.ok false,
       log ++ [{ timestamp := now
                 event_type := "access_attempt"
                 user_id := ctx.user_id
                 resource_id := resource_id
                 action := required.name
                 roles := ctx.roles
                 security_level := ctx.security_level.name
                 status := "failure"
                 details := some [("reason", "insufficient_permissions")] }]) := by
  have hany : ctx.roles.any
      (roleSatisfies st.rolePermissions resource_id required) = false := by
    rw [List.any_eq_false]
    intro role hrole
    have h := hperm role hrole
    intro hsat
    rcases (roleSatisfies_iff st.rolePermissions resource_id required
      role).mp hsat with ⟨g, hg, hcase⟩
    rw [hg] at h
    exact h hcase
  cases hpol : st.securityPolicies resource_id with
  | none => simp [checkAccess, hpol, hany, accessAttemptEvent]
  | some L =>
    have hle := hsec L hpol
    simp [checkAccess, hpol, Nat.not_lt.mpr hle, hany, accessAttemptEvent]

/-- C1 witness: a caller with one role and no grants, against a resource
with no policy, gets the False result and the audited
insufficient_permissions failure event. -/
theorem checkAccess_permission_denied_witness :
    checkAccess ⟨fun _ => none, fun _ _ => none⟩
      [] ⟨"u", ["r"], .LOW, 0, none⟩ "res" .READ 0 =
      (.ok false,
       [{ timestamp := 0
          event_type := "access_attempt"
          user_id := "u"
          resource_id := "res"
          action := "READ"
          roles := ["r"]
          security_level := "LOW"
          status := "failure"
          details := some [("reason", "insufficient_permissions")] }]) := by
  have h := checkAccess_permission_denied ⟨fun _ => none, fun _ _ => none⟩
    [] ⟨"u", ["r"], .LOW, 0, none⟩ "res" .READ 0
    (by intro L hL; cases hL) (by decide)
  simpa using h

/-- C1 counterexample to the claim as stated: on a permission denial the
call returns normally with False (no InsufficientPermission condition is
surfaced to the caller), and the recorded audit event's event_type is
"access_attempt", not "access_denied". -/
theorem checkAccess_permission_denied_not_raised :
    (checkAccess ⟨fun _ => none, fun _ _ => none⟩
      [] ⟨"u", ["r"], .LOW, 0, none⟩ "res" .READ 0).1 = .ok false ∧
    ((checkAccess ⟨fun _ => none, fun _ _ => none⟩
      [] ⟨"u", ["r"], .LOW, 0, none⟩ "res" .READ 0).2.map
        AuditEvent.event_type) = ["access_attempt"] ∧
    "access_attempt" ≠ "access_denied" := by
  refine ⟨rfl, by decide, by decide⟩

/-- C3 (amended): the grant-or-deny outcome of check_access does not
depend on the order of the context's role set, and — whenever the
clearance gate passes — access is granted exactly when some role has an
explicit grant for the resource that is FULL or ordinally at least the
required right (equivalently, the maximum among the roles' explicit
grants satisfies the requirement, a caller none of whose roles has an
explicit grant being denied even for a required right of NONE). -/
theorem checkAccess_order_independent (st : SecurityManagerState)
    (log : List AuditEvent) (ctx : SecurityContext) (resource_id : String)
    (required : AccessRight) (now : ℚ) :
    (∀ roles2 : List String, ctx.roles.Perm roles2 →
      (checkAccess st log ctx resource_id required now).1 =
        (checkAccess st log { ctx with roles := roles2 }
          resource_id required now).1) ∧
    ((∀ L, st.securityPolicies resource_id = some L →
        L.value ≤ ctx.security_level.value) →
      ((checkAccess st log ctx resource_id required now).1 = .ok true ↔
        ∃ role ∈ ctx.roles, ∃ g,
          st.rolePermissions role resource_id = some g ∧
            (g = .FULL ∨ required.value ≤ g.value))) := by
  constructor
  · intro roles2 hperm
    have hany := any_perm
      (roleSatisfies st.rolePermissions resource_id required) hperm
    cases hpol : st.securityPolicies resource_id with
    | none =>
      simp only [checkAccess, hpol, hany]
      split <;> rfl
    | some L =>
      by_cases hlt : ctx.security_level.value < L.value
      · simp [checkAccess, hpol, hlt]
      · simp only [checkAccess, hpol, hany, if_neg hlt]
        split <;> rfl
  · intro hsec
    have hchar : ctx.roles.any
        (roleSatisfies st.rolePermissions resource_id required) = true ↔
        ∃ role ∈ ctx.roles, ∃ g,
          st.rolePermissions role resource_id = some g ∧
            (g = .FULL ∨ required.value ≤ g.value) := by
      simp only [List.any_eq_true, roleSatisfies_iff]
    rw [← hchar]
    cases hpol : st.securityPolicies resource_id with
    | none =>
      cases hany : ctx.roles.any
          (roleSatisfies st.rolePermissions resource_id required) with
      | true => simp [checkAccess, hpol, hany]
      | false => simp [checkAccess, hpol, hany]
    | some L =>
      have hle := hsec L hpol
      cases hany : ctx.roles.any
          (roleSatisfies st.rolePermissions resource_id required) with
      | true => simp [checkAccess, hpol, Nat.not_lt.mpr hle, hany]
      | false => simp [checkAccess, hpol, Nat.not_lt.mpr hle, hany]

/-- C3 witness: with READ granted to role r, the outcome is the same for
role lists in either order, and access is granted. -/
theorem checkAccess_order_independent_witness :
    (checkAccess ⟨fun _ => none,
        updateFn2 (fun _ _ => none) "r" "res" (some .READ)⟩
      [] ⟨"u", ["a", "r"], .LOW, 0, none⟩ "res" .READ 0).1 =
      (checkAccess ⟨fun _ => none,
          updateFn2 (fun _ _ => none) "r" "res" (some .READ)⟩
        [] ⟨"u", ["r", "a"], .LOW, 0, none⟩ "res" .READ 0).1 ∧
    (checkAccess ⟨fun _ => none,
        updateFn2 (fun _ _ => none) "r" "res" (some .READ)⟩
      [] ⟨"u", ["a", "r"], .LOW, 0, none⟩ "res" .READ 0).1 = .ok true := by
  have h := checkAccess_order_independent
    ⟨fun _ => none, updateFn2 (fun _ _ => none) "r" "res" (some .READ)⟩
    [] ⟨"u", ["a", "r"], .LOW, 0, none⟩ "res" .READ 0
  refine ⟨h.1 ["r", "a"] (by decide), ?_⟩
  exact (h.2 (by intro L hL; cases hL)).mpr
    ⟨"r", by decide, .READ, rfl, Or.inr (by decide)⟩

/-- C3 counterexample to the claim as stated: with one role and no
explicit grants, the claimed decision formula (grants defaulting to NONE,
maximum compared against the required right) grants a required right of
NONE, but check_access denies. -/
theorem checkAccess_max_formula_cex :
    (checkAccess ⟨fun _ => none, fun _ _ => none⟩
      [] ⟨"u", ["r"], .LOW, 0, none⟩ "res" .NONE 0).1 = .ok false ∧
    claimedMaxDecision (fun _ _ => none) ["r"] "res" .NONE = true := by
  exact ⟨rfl, by decide⟩

/-- C4: for a resource with no configured security policy the clearance
gate of check_access passes for every context security level (the call
returns a boolean, never a clearance violation), and a FULL grant on one
of the caller's roles makes it return True; the duplicated sdk
check_access likewise admits any clearance for an unconfigured resource
and grants on a FULL role. -/
theorem checkAccess_unset_policy_defaults_low :
    (∀ (st : SecurityManagerState) (log : List AuditEvent)
        (ctx : SecurityContext) (resource_id : String)
        (required : AccessRight) (now : ℚ),
      st.securityPolicies resource_id = none →
        (∃ b, (checkAccess st log ctx resource_id required now).1 =
          .ok b) ∧
        (∀ role ∈ ctx.roles,
          st.rolePermissions role resource_id = some .FULL →
            (checkAccess st log ctx resource_id required now).1 =
              .ok true)) ∧
    (∀ (policies : String → Option Sdk.SecurityLevel)
        (perms : String → String → Option AccessRight)
        (roles : List String) (level : Sdk.SecurityLevel)
        (resource_id : String) (required : AccessRight) (role : String),
      policies resource_id = none → role ∈ roles →
        perms role resource_id = some .FULL →
          Sdk.checkAccess policies perms roles level resource_id required =
            true) := by
  constructor
  · intro st log ctx resource_id required now hpol
    constructor
    · cases hany : ctx.roles.any
          (roleSatisfies st.rolePermissions resource_id required) with
      | true => exact ⟨true, by simp [checkAccess, hpol, hany]⟩
      | false => exact ⟨false, by simp [checkAccess, hpol, hany]⟩
    · intro role hmem hfull
      have hany : ctx.roles.any
          (roleSatisfies st.rolePermissions resource_id required) = true :=
        List.any_eq_true.mpr
          ⟨role, hmem, (roleSatisfies_iff _ _ _ _).mpr
            ⟨.FULL, hfull, Or.inl rfl⟩⟩
      simp [checkAccess, hpol, hany]
  · intro policies perms roles level resource_id required role hpol hmem hfull
    have hlev : ¬ level.value < (Sdk.SecurityLevel.LOW).value := by
      cases level <;> decide
    have hany : roles.any
        (Sdk.roleSatisfies perms resource_id required) = true := by
      refine List.any_eq_true.mpr ⟨role, hmem, ?_⟩
      simp [Sdk.roleSatisfies, hfull]
    simp [Sdk.checkAccess, hpol, hlev, hany]

/-- C4 witness: with no policy on the resource, a LOW caller whose role
holds FULL is granted WRITE by the core check_access, and likewise by the
sdk check_access. -/
theorem checkAccess_unset_policy_defaults_low_witness :
    (checkAccess ⟨fun _ => none,
        updateFn2 (fun _ _ => none) "r" "res" (some .FULL)⟩
      [] ⟨"u", ["r"], .LOW, 0, none⟩ "res" .WRITE 0).1 = .ok true ∧
    Sdk.checkAccess (fun _ => none)
      (updateFn2 (fun _ _ => none) "r" "res" (some .FULL))
      ["r"] .LOW "res" .WRITE = true := by
  have h := checkAccess_unset_policy_defaults_low
  refine ⟨(h.1 ⟨fun _ => none,
      updateFn2 (fun _ _ => none) "r" "res" (some .FULL)⟩
    [] ⟨"u", ["r"], .LOW, 0, none⟩ "res" .WRITE 0 rfl).2 "r"
      (by decide) rfl, ?_⟩
  exact h.2 (fun _ => none)
    (updateFn2 (fun _ _ => none) "r" "res" (some .FULL))
    ["r"] .LOW "res" .WRITE "r" rfl (by decide) rfl

/-- C5: for a resource with a configured limit, check_rate_limit fails
with wait_time = block_until - now under an active block (state
unchanged); behaves on an elapsed block exactly as on the state with the
block cleared; with no block, fails with wait_time = block_seconds and
installs a block until now + block_seconds when the in-window timestamp
count already meets the quota (the evicted list being stored); and
otherwise records now and admits. -/
theorem checkRateLimit_spec (st : RateLimiterState)
    (resource_id client_id : String) (now : ℚ) (limit : RateLimit)
    (hlim : st.limits resource_id = some limit) :
    (∀ bu, st.blocks resource_id client_id = some bu → now < bu →
      checkRateLimit st resource_id client_id now =
        (.error (bu - now), st)) ∧
    (∀ bu, st.blocks resource_id client_id = some bu → bu ≤ now →
      checkRateLimit st resource_id client_id now =
        checkRateLimit
          { st with blocks := updateFn2 st.blocks resource_id client_id none }
          resource_id client_id now) ∧
    (st.blocks resource_id client_id = none →
      (limit.requests ≤ ((st.requests resource_id client_id).filter
          (fun t => decide (now - limit.windowSeconds < t))).length →
        (checkRateLimit st resource_id client_id now).1 =
          .error limit.blockSeconds ∧
        (checkRateLimit st resource_id client_id now).2.blocks
            resource_id client_id = some (now + limit.blockSeconds) ∧
        (checkRateLimit st resource_id client_id now).2.requests
            resource_id client_id =
          (st.requests resource_id client_id).filter
            (fun t => decide (now - limit.windowSeconds < t))) ∧
      (((st.requests resource_id client_id).filter
          (fun t => decide (now - limit.windowSeconds < t))).length <
            limit.requests →
        (checkRateLimit st resource_id client_id now).1 = .ok () ∧
        (checkRateLimit st resource_id client_id now).2.requests
            resource_id client_id =
          (st.requests resource_id client_id).filter
            (fun t => decide (now - limit.windowSeconds < t)) ++ [now] ∧
        (checkRateLimit st resource_id client_id now).2.blocks
            resource_id client_id = none)) := by
  refine ⟨?_, ?_, ?_⟩
  · intro bu hb hlt
    simp [checkRateLimit, hlim, hb, hlt]
  · intro bu hb hle
    have hcleared : updateFn2 st.blocks resource_id client_id none
        resource_id client_id = none := by
      simp [updateFn2]
    simp only [checkRateLimit, hlim, hb, hcleared, if_neg (not_lt.mpr hle)]
  · intro hb
    constructor
    · intro hge
      simp [checkRateLimit, hlim, hb, checkWindow, if_pos hge, updateFn2]
    · intro hlt
      simp [checkRateLimit, hlim, hb, checkWindow,
        if_neg (not_le.mpr hlt), updateFn2]

/-- C5 witness: with quota 1, window 10 and block 5 on the resource, a
blocked client at time 1 waits 2 until the block at 3; a client whose
window already holds one timestamp is rejected with wait 5 and blocked
until 6; and with quota 2 the same call admits and records time 1. -/
theorem checkRateLimit_spec_witness :
    (checkRateLimit
      ⟨updateFn (fun _ => none) "r" (some ⟨1, 10, 5⟩), fun _ _ => [],
       updateFn2 (fun _ _ => none) "r" "c" (some 3)⟩ "r" "c" 1).1 =
        .error 2 ∧
    (checkRateLimit
      ⟨updateFn (fun _ => none) "r" (some ⟨1, 10, 5⟩),
       updateFn2 (fun _ _ => []) "r" "c" [0], fun _ _ => none⟩
      "r" "c" 1).1 = .error 5 ∧
    (checkRateLimit
      ⟨updateFn (fun _ => none) "r" (some ⟨1, 10, 5⟩),
       updateFn2 (fun _ _ => []) "r" "c" [0], fun _ _ => none⟩
      "r" "c" 1).2.blocks "r" "c" = some 6 ∧
    (checkRateLimit
      ⟨updateFn (fun _ => none) "r" (some ⟨2, 10, 5⟩),
       updateFn2 (fun _ _ => []) "r" "c" [0], fun _ _ => none⟩
      "r" "c" 1).1 = .ok () ∧
    (checkRateLimit
      ⟨updateFn (fun _ => none) "r" (some ⟨2, 10, 5⟩),
       updateFn2 (fun _ _ => []) "r" "c" [0], fun _ _ => none⟩
      "r" "c" 1).2.requests "r" "c" = [0, 1] := by
  have hA := checkRateLimit_spec
    ⟨updateFn (fun _ => none) "r" (some ⟨1, 10, 5⟩), fun _ _ => [],
     updateFn2 (fun _ _ => none) "r" "c" (some 3)⟩ "r" "c" 1 ⟨1, 10, 5⟩ rfl
  have hB := checkRateLimit_spec
    ⟨updateFn (fun _ => none) "r" (some ⟨1, 10, 5⟩),
     updateFn2 (fun _ _ => []) "r" "c" [0], fun _ _ => none⟩
    "r" "c" 1 ⟨1, 10, 5⟩ rfl
  have hC := checkRateLimit_spec
    ⟨updateFn (fun _ => none) "r" (some ⟨2, 10, 5⟩),
     updateFn2 (fun _ _ => []) "r" "c" [0], fun _ _ => none⟩
    "r" "c" 1 ⟨2, 10, 5⟩ rfl
  have hA1 := hA.1 3 rfl (by norm_num)
  have hB1 := (hB.2.2 rfl).1 (by norm_num [List.filter, updateFn2])
  have hC1 := (hC.2.2 rfl).2 (by norm_num [List.filter, updateFn2])
  refine ⟨?_, ?_, ?_, ?_, ?_⟩
  · rw [hA1]; norm_num
  · rw [hB1.1]
  · rw [hB1.2.1]; norm_num
  · rw [hC1.1]
  · rw [hC1.2.1]; norm_num [List.filter, updateFn2]

/-- C6 (amended): get_remaining_requests is a pure read (the embedding
returns only a value); it returns the no-limit sentinel None for an
unconfigured resource, returns 0 whenever a block entry is present for
the client — even one whose block time has already elapsed but was never
cleared by a later check — and otherwise returns
max(0, max_requests - count of in-window timestamps). -/
theorem getRemainingRequests_spec (st : RateLimiterState)
    (resource_id client_id : String) (now : ℚ) :
    (st.limits resource_id = none →
      getRemainingRequests st resource_id client_id now = none) ∧
    (∀ limit, st.limits resource_id = some limit →
      (∀ bu, st.blocks resource_id client_id = some bu →
        getRemainingRequests st resource_id client_id now = some 0) ∧
      (st.blocks resource_id client_id = none →
        getRemainingRequests st resource_id client_id now =
          some (max 0 ((limit.requests : Int) -
            (((st.requests resource_id client_id).filter
              (fun t => decide (now - limit.windowSeconds < t))).length :
                Int))))) := by
  refine ⟨fun h => by simp [getRemainingRequests, h], ?_⟩
  intro limit hlim
  refine ⟨fun bu hb => by simp [getRemainingRequests, hlim, hb], ?_⟩
  intro hb
  simp [getRemainingRequests, hlim, hb]

/-- C6 witness: no limit gives None; a blocked client reads 0; an
unblocked client with an empty window under quota 1 reads 1. -/
theorem getRemainingRequests_spec_witness :
    getRemainingRequests ⟨fun _ => none, fun _ _ => [], fun _ _ => none⟩
      "r" "c" 5 = none ∧
    getRemainingRequests
      ⟨updateFn (fun _ => none) "r" (some ⟨1, 1, 2⟩), fun _ _ => [],
       updateFn2 (fun _ _ => none) "r" "c" (some 9)⟩ "r" "c" 5 = some 0 ∧
    getRemainingRequests
      ⟨updateFn (fun _ => none) "r" (some ⟨1, 1, 2⟩), fun _ _ => [],
       fun _ _ => none⟩ "r" "c" 5 = some 1 := by
  have h1 := getRemainingRequests_spec
    ⟨fun _ => none, fun _ _ => [], fun _ _ => none⟩ "r" "c" 5
  have h2 := getRemainingRequests_spec
    ⟨updateFn (fun _ => none) "r" (some ⟨1, 1, 2⟩), fun _ _ => [],
     updateFn2 (fun _ _ => none) "r" "c" (some 9)⟩ "r" "c" 5
  have h3 := getRemainingRequests_spec
    ⟨updateFn (fun _ => none) "r" (some ⟨1, 1, 2⟩), fun _ _ => [],
     fun _ _ => none⟩ "r" "c" 5
  refine ⟨h1.1 rfl, (h2.2 ⟨1, 1, 2⟩ rfl).1 9 rfl, ?_⟩
  rw [(h3.2 ⟨1, 1, 2⟩ rfl).2 rfl]
  decide

/-- C6 counterexample to the claim as stated: with quota 1 and an empty
window, a client whose block entry (until time 2) has already elapsed at
time 5 is not currently blocked, yet get_remaining_requests returns 0
where the claim requires max(0, 1 - 0) = 1 — the source tests only
membership in the block table, never the block's expiry time. -/
theorem getRemainingRequests_stale_block_cex :
    getRemainingRequests
      ⟨updateFn (fun _ => none) "r" (some ⟨1, 1, 2⟩), fun _ _ => [],
       updateFn2 (fun _ _ => none) "r" "c" (some 2)⟩ "r" "c" 5 = some 0 ∧
    ¬((5 : ℚ) < 2) ∧
    (some 0 : Option Int) ≠ some (max 0 ((1 : Int) - 0)) := by
  refine ⟨by decide, by norm_num, by decide⟩

/-- C7: get_session returns empty for an absent id and leaves the state
unchanged; for a stored session whose expires_at has passed it returns
empty and removes the session from the id table and from the per-user
index (the entire state becoming the _remove_session result); for a valid
session it returns the stored record with last_accessed advanced to now
and expires_at to now + default timeout, storing the same record. -/
theorem getSession_spec (st : SessionManagerState) (sid : String) (now : ℚ) :
    (st.sessions sid = none → getSession st sid now = (none, st)) ∧
    (∀ s, st.sessions sid = some s → s.expiresAt < now →
      s.sessionId = sid →
        (getSession st sid now).1 = none ∧
        (getSession st sid now).2.sessions sid = none ∧
        (∀ ids, (getSession st sid now).2.userSessions s.userId =
          some ids → sid ∉ ids) ∧
        (getSession st sid now).2 = removeSession st s) ∧
    (∀ s, st.sessions sid = some s → ¬ s.expiresAt < now →
      getSession st sid now =
        (some { s with lastAccessed := now,
                       expiresAt := now + st.sessionTimeout },
         { st with sessions :=
             (updateFn st.sessions sid
               (some { s with lastAccessed := now,
                              expiresAt := now + st.sessionTimeout })) })) := by
  refine ⟨fun h => by simp [getSession, h], ?_, ?_⟩
  · intro s hs hexp hid
    have hrun : getSession st sid now = (none, removeSession st s) := by
      simp [getSession, hs, hexp]
    refine ⟨by rw [hrun], ?_, ?_, by rw [hrun]⟩
    · rw [hrun]
      simp [removeSession, updateFn, hid]
    · intro ids hids
      rw [hrun] at hids
      cases hu : st.userSessions s.userId with
      | none =>
        simp only [removeSession, hu] at hids
        exact absurd hids (by simp)
      | some ids0 =>
        simp only [removeSession, hu] at hids
        by_cases hempty : (ids0.filter (fun i => i != s.sessionId)).isEmpty
        · rw [if_pos hempty] at hids
          simp [updateFn] at hids
        · rw [if_neg hempty] at hids
          simp [updateFn] at hids
          intro hmem
          rw [← hids] at hmem
          rcases List.mem_filter.mp hmem with ⟨_, hne⟩
          exact bne_iff_ne.mp hne (hid.symm)
  · intro s hs hval
    simp [getSession, hs, hval]

/-- C7 witness: on a store holding session sid1 for user u expiring at 10
with default timeout 30, an unknown id returns empty with the state
untouched; reading at time 11 expires and removes the session; reading at
time 5 renews last_accessed to 5 and expires_at to 35. -/
theorem getSession_spec_witness :
    getSession
      ⟨updateFn (fun _ => none) "sid1" (some ⟨"sid1", "u", [], 0, 10, 0⟩),
       updateFn (fun _ => none) "u" (some ["sid1"]), 30⟩ "zzz" 5 =
      (none,
       ⟨updateFn (fun _ => none) "sid1" (some ⟨"sid1", "u", [], 0, 10, 0⟩),
        updateFn (fun _ => none) "u" (some ["sid1"]), 30⟩) ∧
    (getSession
      ⟨updateFn (fun _ => none) "sid1" (some ⟨"sid1", "u", [], 0, 10, 0⟩),
       updateFn (fun _ => none) "u" (some ["sid1"]), 30⟩ "sid1" 11).1 =
      none ∧
    (getSession
      ⟨updateFn (fun _ => none) "sid1" (some ⟨"sid1", "u", [], 0, 10, 0⟩),
       updateFn (fun _ => none) "u" (some ["sid1"]), 30⟩ "sid1" 11).2.sessions
      "sid1" = none ∧
    (getSession
      ⟨updateFn (fun _ => none) "sid1" (some ⟨"sid1", "u", [], 0, 10, 0⟩),
       updateFn (fun _ => none) "u" (some ["sid1"]), 30⟩ "sid1" 5).1 =
      some ⟨"sid1", "u", [], 0, 5 + 30, 5⟩ := by
  have h1 := getSession_spec
    ⟨updateFn (fun _ => none) "sid1" (some ⟨"sid1", "u", [], 0, 10, 0⟩),
     updateFn (fun _ => none) "u" (some ["sid1"]), 30⟩ "zzz" 5
  have h2 := getSession_spec
    ⟨updateFn (fun _ => none) "sid1" (some ⟨"sid1", "u", [], 0, 10, 0⟩),
     updateFn (fun _ => none) "u" (some ["sid1"]), 30⟩ "sid1" 11
  have h3 := getSession_spec
    ⟨updateFn (fun _ => none) "sid1" (some ⟨"sid1", "u", [], 0, 10, 0⟩),
     updateFn (fun _ => none) "u" (some ["sid1"]), 30⟩ "sid1" 5
  have h2x := h2.2.1 ⟨"sid1", "u", [], 0, 10, 0⟩ rfl (by norm_num) rfl
  refine ⟨h1.1 rfl, h2x.1, h2x.2.1, ?_⟩
  have h3x := h3.2.2 ⟨"sid1", "u", [], 0, 10, 0⟩ rfl (by norm_num)
  exact congrArg Prod.fst h3x

/-- C9 (amended): a session returned by create_session satisfies
created_at ≤ expires_at whenever the effective duration — the supplied
duration if it is non-zero, otherwise the default timeout, following the
source's truthiness test — is non-negative; the source validates
neither value, so a negative effective duration violates the invariant.
The sliding renewal of get_session preserves the invariant whenever the
default timeout is non-negative and the clock has not run backwards past
the session's creation. -/
theorem session_expires_not_before_created :
    (∀ (st : SessionManagerState) (userId : String) (roles : List String)
        (dur : Option ℚ) (now : ℚ) (sid : String),
      0 ≤ effectiveDuration dur st.sessionTimeout →
        (createSession st userId roles dur now sid).1.createdAt ≤
          (createSession st userId roles dur now sid).1.expiresAt) ∧
    (∀ (st : SessionManagerState) (sid : String) (now : ℚ) (s1 : Session),
      0 ≤ st.sessionTimeout →
        (getSession st sid now).1 = some s1 →
        s1.createdAt ≤ now →
          s1.createdAt ≤ s1.expiresAt) := by
  constructor
  · intro st userId roles dur now sid hdur
    simp only [createSession]
    linarith
  · intro st sid now s1 hto hget hcle
    cases hs : st.sessions sid with
    | none => simp [getSession, hs] at hget
    | some s =>
      by_cases hexp : s.expiresAt < now
      · simp [getSession, hs, hexp] at hget
      · simp only [getSession, hs, if_neg hexp] at hget
        have hx : s1.expiresAt = now + st.sessionTimeout := by
          cases hget
          rfl
        rw [hx]
        linarith

/-- C9 witness: with duration 10 at time 100, created_at 100 ≤ expires_at
110; and a renewed read at time 5 of a session created at 0 with timeout
30 keeps created_at 0 ≤ expires_at 35. -/
theorem session_expires_not_before_created_witness :
    (createSession ⟨fun _ => none, fun _ => none, 30⟩ "u" []
      (some 10) 100 "sid").1.createdAt ≤
    (createSession ⟨fun _ => none, fun _ => none, 30⟩ "u" []
      (some 10) 100 "sid").1.expiresAt ∧
    (⟨"sid1", "u", [], 0, 5 + 30, 5⟩ : Session).createdAt ≤
      (⟨"sid1", "u", [], 0, 5 + 30, 5⟩ : Session).expiresAt := by
  constructor
  · exact session_expires_not_before_created.1
      ⟨fun _ => none, fun _ => none, 30⟩ "u" [] (some 10) 100 "sid"
      (by norm_num [effectiveDuration])
  · refine session_expires_not_before_created.2
      ⟨updateFn (fun _ => none) "sid1" (some ⟨"sid1", "u", [], 0, 10, 0⟩),
       updateFn (fun _ => none) "u" (some ["sid1"]), 30⟩
      "sid1" 5 ⟨"sid1", "u", [], 0, 5 + 30, 5⟩ (by norm_num) ?_ (by norm_num)
    simp [getSession, updateFn]
    norm_num

/-- C9 counterexample to the claim as stated: create_session accepts a
negative duration without validation — timedelta(seconds = -10) is
truthy, so the or-fallback does not engage — producing a stored session
with expires_at 90 strictly before created_at 100. -/
theorem createSession_negative_duration_cex :
    (createSession ⟨fun _ => none, fun _ => none, 30⟩ "u" []
      (some (-10)) 100 "sid").1.expiresAt <
    (createSession ⟨fun _ => none, fun _ => none, 30⟩ "u" []
      (some (-10)) 100 "sid").1.createdAt := by
  simp only [createSession, effectiveDuration]
  norm_num

/-- C8 (AuditLog modelled from the spec): get_events returns a sublist of
the stored sequence (insertion order, no mutation), an event is returned
exactly when it is stored and matches every supplied filter, and on a
concrete log of three u1 events interleaved with one u2 event the u1
query returns exactly the three u1 events in insertion order while a
query for an absent event type returns the empty sequence. -/
theorem auditLog_getEvents_spec :
    (∀ (log : AuditLog) (u t : Option String) (a b : Option ℚ),
      (log.getEvents u t a b).Sublist log.events) ∧
    (∀ (log : AuditLog) (u t : Option String) (a b : Option ℚ)
        (ev : AuditEvent),
      ev ∈ log.getEvents u t a b ↔
        ev ∈ log.events ∧ matchesFilters u t a b ev = true) ∧
    ((((((AuditLog.mk []).logEvent
        ⟨0, "login", "u1", "r1", "a", [], "LOW", "success", none⟩).logEvent
        ⟨1, "access_attempt", "u1", "r2", "READ", [], "LOW", "success",
          none⟩).logEvent
        ⟨2, "login", "u2", "r1", "a", [], "LOW", "success", none⟩).logEvent
        ⟨3, "logout", "u1", "r1", "a", [], "LOW", "success",
          none⟩).getEvents (some "u1") none none none =
      [⟨0, "login", "u1", "r1", "a", [], "LOW", "success", none⟩,
       ⟨1, "access_attempt", "u1", "r2", "READ", [], "LOW", "success", none⟩,
       ⟨3, "logout", "u1", "r1", "a", [], "LOW", "success", none⟩]) ∧
    ((((((AuditLog.mk []).logEvent
        ⟨0, "login", "u1", "r1", "a", [], "LOW", "success", none⟩).logEvent
        ⟨1, "access_attempt", "u1", "r2", "READ", [], "LOW", "success",
          none⟩).logEvent
        ⟨2, "login", "u2", "r1", "a", [], "LOW", "success", none⟩).logEvent
        ⟨3, "logout", "u1", "r1", "a", [], "LOW", "success",
          none⟩).getEvents none (some "nonexistent") none none = []) := by
  refine ⟨?_, ?_, by decide, by decide⟩
  · intro log u t a b
    exact List.filter_sublist _
  · intro log u t a b ev
    exact List.mem_filter

/-- The sdk security level's core counterpart has the same numeric
value. -/
theorem sdk_toCore_value (l : Sdk.SecurityLevel) :
    l.toCore.value = l.value := by
  cases l <;> rfl

/-- Every sdk security level has value at least 1 (the LOW value). -/
theorem sdk_level_value_pos (l : Sdk.SecurityLevel) : 1 ≤ l.value := by
  cases l <;> decide

/-- For a required right other than NONE, one iteration of the core role
loop and one iteration of the sdk role loop agree. -/
theorem roleSatisfies_core_eq_sdk
    (perms : String → String → Option AccessRight)
    (resource_id role : String) (required : AccessRight)
    (h : required ≠ .NONE) :
    roleSatisfies perms resource_id required role =
      Sdk.roleSatisfies perms resource_id required role := by
  cases hg : perms role resource_id with
  | none =>
    cases required with
    | NONE => exact absurd rfl h
    | READ => simp [roleSatisfies, Sdk.roleSatisfies, hg] <;> decide
    | WRITE => simp [roleSatisfies, Sdk.roleSatisfies, hg] <;> decide
    | EXECUTE => simp [roleSatisfies, Sdk.roleSatisfies, hg] <;> decide
    | FULL => simp [roleSatisfies, Sdk.roleSatisfies, hg] <;> decide
  | some g =>
    cases required with
    | NONE => exact absurd rfl h
    | READ =>
      cases g <;> simp [roleSatisfies, Sdk.roleSatisfies, hg] <;> decide
    | WRITE =>
      cases g <;> simp [roleSatisfies, Sdk.roleSatisfies, hg] <;> decide
    | EXECUTE =>
      cases g <;> simp [roleSatisfies, Sdk.roleSatisfies, hg] <;> decide
    | FULL =>
      cases g <;> simp [roleSatisfies, Sdk.roleSatisfies, hg] <;> decide

/-- C10 (amended): over the same policy state, expressed with the
security levels present in both implementations, the core and sdk
check_access agree on grant versus deny for every required right other
than NONE (reading the core's raised clearance violation and returned
False both as deny), and they agree in particular whenever the caller's
clearance is below the resource's requirement; for a required right of
NONE they can disagree — the core grants on any explicit grant, the sdk
only on FULL. -/
theorem core_sdk_checkAccess_agree
    (policies : String → Option Sdk.SecurityLevel)
    (perms : String → String → Option AccessRight)
    (log : List AuditEvent) (userId : String) (roles : List String)
    (level : Sdk.SecurityLevel) (tok : Option String) (ts now : ℚ)
    (resource_id : String) (required : AccessRight) :
    (required ≠ .NONE →
      ((checkAccess
          ⟨fun r => (policies r).map Sdk.SecurityLevel.toCore, perms⟩
          log ⟨userId, roles, level.toCore, ts, tok⟩
          resource_id required now).1 = .ok true ↔
        Sdk.checkAccess policies perms roles level resource_id required =
          true)) ∧
    (∀ L, policies resource_id = some L → level.value < L.value →
      (checkAccess
          ⟨fun r => (policies r).map Sdk.SecurityLevel.toCore, perms⟩
          log ⟨userId, roles, level.toCore, ts, tok⟩
          resource_id required now).1 = .error ⟨L.toCore, level.toCore⟩ ∧
      Sdk.checkAccess policies perms roles level resource_id required =
        false) := by
  constructor
  · intro hreq
    have hany : roles.any (roleSatisfies perms resource_id required) =
        roles.any (Sdk.roleSatisfies perms resource_id required) :=
      any_congr_mem (fun role _ =>
        roleSatisfies_core_eq_sdk perms resource_id role required hreq)
    cases hp : policies resource_id with
    | none =>
      have hlev : ¬ level.value < (Sdk.SecurityLevel.LOW).value :=
        not_lt.mpr (sdk_level_value_pos level)
      cases ha : roles.any (Sdk.roleSatisfies perms resource_id required) with
      | true =>
        simp [checkAccess, Sdk.checkAccess, hp, hlev, hany, ha]
      | false =>
        simp [checkAccess, Sdk.checkAccess, hp, hlev, hany, ha]
    | some L =>
      by_cases hlt : level.value < L.value
      · have hcore : level.toCore.value < L.toCore.value := by
          rw [sdk_toCore_value, sdk_toCore_value]; exact hlt
        simp [checkAccess, Sdk.checkAccess, hp, hlt, hcore]
      · have hcore : ¬ level.toCore.value < L.toCore.value := by
          rw [sdk_toCore_value, sdk_toCore_value]; exact hlt
        cases ha : roles.any (Sdk.roleSatisfies perms resource_id required) with
        | true =>
          simp [checkAccess, Sdk.checkAccess, hp, hlt, hcore, hany, ha]
        | false =>
          simp [checkAccess, Sdk.checkAccess, hp, hlt, hcore, hany, ha]
  · intro L hp hlt
    have hcore : level.toCore.value < L.toCore.value := by
      rw [sdk_toCore_value, sdk_toCore_value]; exact hlt
    constructor
    · simp [checkAccess, hp, hcore]
    · simp [Sdk.checkAccess, hp, hlt]

/-- C10 witness: with READ granted to role r and no policy, both
implementations grant a READ request; with a MEDIUM policy and a LOW
caller, the core raises its clearance violation and the sdk returns
False. -/
theorem core_sdk_checkAccess_agree_witness :
    (checkAccess
      ⟨fun r => ((fun (_ : String) =>
          (none : Option Sdk.SecurityLevel)) r).map Sdk.SecurityLevel.toCore,
       updateFn2 (fun _ _ => none) "r" "res" (some .READ)⟩
      [] ⟨"u", ["r"], Sdk.SecurityLevel.LOW.toCore, 0, none⟩
      "res" .READ 0).1 = .ok true ∧
    Sdk.checkAccess (fun _ => none)
      (updateFn2 (fun _ _ => none) "r" "res" (some .READ))
      ["r"] .LOW "res" .READ = true ∧
    (checkAccess
      ⟨fun r => ((updateFn (fun _ => none) "res"
          (some Sdk.SecurityLevel.MEDIUM)) r).map Sdk.SecurityLevel.toCore,
       fun _ _ => none⟩
      [] ⟨"u", ["r"], Sdk.SecurityLevel.LOW.toCore, 0, none⟩
      "res" .READ 0).1 =
      .error ⟨Sdk.SecurityLevel.MEDIUM.toCore, Sdk.SecurityLevel.LOW.toCore⟩ ∧
    Sdk.checkAccess (updateFn (fun _ => none) "res"
        (some Sdk.SecurityLevel.MEDIUM))
      (fun _ _ => none) ["r"] .LOW "res" .READ = false := by
  have h1 := core_sdk_checkAccess_agree (fun _ => none)
    (updateFn2 (fun _ _ => none) "r" "res" (some .READ))
    [] "u" ["r"] .LOW none 0 0 "res" .READ
  have h2 := core_sdk_checkAccess_agree
    (updateFn (fun _ => none) "res" (some Sdk.SecurityLevel.MEDIUM))
    (fun _ _ => none) [] "u" ["r"] .LOW none 0 0 "res" .READ
  have h2x := h2.2 .MEDIUM rfl (by decide)
  exact ⟨(h1.1 (by decide)).mpr rfl, rfl, h2x.1, h2x.2⟩

/-- C10 counterexample to the claim as stated: with READ explicitly
granted to role r and a required right of NONE, the core check_access
grants (READ's ordinal exceeds NONE's) while the sdk check_access — whose
role loop has no branch for a required right of NONE other than FULL —
denies. -/
theorem core_sdk_disagree_on_required_none :
    (checkAccess
      ⟨fun _ => none, updateFn2 (fun _ _ => none) "r" "res" (some .READ)⟩
      [] ⟨"u", ["r"], .LOW, 0, none⟩ "res" .NONE 0).1 = .ok true ∧
    Sdk.checkAccess (fun _ => none)
      (updateFn2 (fun _ _ => none) "r" "res" (some .READ))
      ["r"] .LOW "res" .NONE = false := by
  exact ⟨rfl, rfl⟩

end BasyxSecurity
